import Mathlib

/-!
Shallow embedding of `src/llmux.py` (NotebookLM scatter-gather scheduler).

Remote HTTP collaborators are modelled as explicit oracle functions passed to
each operation: an oracle maps the request data the source would send to either
the successful response payload (`Except.ok`) or the error body text that the
source would read from a non-200 response (`Except.error`).  `asyncio.gather`
is modelled as `gatherExcept`, which collects results in task order and
propagates an error when any task fails; the source propagates the first
exception in completion order, which coincides with task order whenever at
most one task fails (the situation every claim below quantifies over).
Stateful methods return the updated object explicitly; the Python methods
assign no attribute except `create_notebook`, which writes `notebook_id`.
-/

namespace Llmux

/-- Boolean test that `p` is a prefix of `s` (plain structural recursion so
that concrete instances reduce in the kernel). -/
def listPrefixOf : List Char → List Char → Bool
  | [], _ => true
  | _ :: _, [] => false
  | a :: as, b :: bs => a == b && listPrefixOf as bs

/-- Boolean test that `p` occurs contiguously somewhere inside `s`. -/
def listContainsSeg (p : List Char) : List Char → Bool
  | [] => listPrefixOf p []
  | s@(_ :: t) => listPrefixOf p s || listContainsSeg p t

/-- Boolean test that `a` occurs in `s` and `b` occurs wholly after it. -/
def seqOccursB (a b : List Char) : List Char → Bool
  | [] => listPrefixOf a [] && listContainsSeg b []
  | s@(_ :: t) => (listPrefixOf a s && listContainsSeg b (s.drop a.length)) || seqOccursB a b t

/-- `strContains hay pat` holds when `pat` occurs contiguously in `hay`. -/
def strContains (hay pat : String) : Bool :=
  listContainsSeg pat.data hay.data

theorem listPrefixOf_iff (p s : List Char) : listPrefixOf p s = true ↔ ∃ t, s = p ++ t := by
  induction p generalizing s with
  | nil => simp [listPrefixOf]
  | cons a as ih =>
    cases s with
    | nil => simp [listPrefixOf]
    | cons b bs =>
      simp only [listPrefixOf, Bool.and_eq_true, beq_iff_eq, ih]
      constructor
      · rintro ⟨rfl, t, rfl⟩; exact ⟨t, rfl⟩
      · rintro ⟨t, ht⟩
        cases ht
        exact ⟨rfl, t, rfl⟩

theorem listContainsSeg_iff (p s : List Char) :
    listContainsSeg p s = true ↔ ∃ u v, s = u ++ p ++ v := by
  induction s with
  | nil =>
    simp only [listContainsSeg, listPrefixOf_iff]
    constructor
    · rintro ⟨t, ht⟩; exact ⟨[], t, ht⟩
    · rintro ⟨u, v, huv⟩
      rcases List.append_eq_nil.mp (List.append_eq_nil.mp huv.symm).1 with ⟨hu, hp⟩
      exact ⟨v, by simp [hp, (List.append_eq_nil.mp huv.symm).2]⟩
  | cons c t ih =>
    simp only [listContainsSeg, Bool.or_eq_true, listPrefixOf_iff, ih]
    constructor
    · rintro (⟨w, hw⟩ | ⟨u, v, huv⟩)
      · exact ⟨[], w, by simpa using hw⟩
      · exact ⟨c :: u, v, by simp [huv]⟩
    · rintro ⟨u, v, huv⟩
      cases u with
      | nil => exact Or.inl ⟨v, by simpa using huv⟩
      | cons x xs =>
        simp only [List.cons_append, List.cons.injEq] at huv
        exact Or.inr ⟨xs, v, huv.2⟩

theorem seqOccursB_iff (a b s : List Char) :
    seqOccursB a b s = true ↔ ∃ pre mid post, s = pre ++ a ++ mid ++ b ++ post := by
  induction s with
  | nil =>
    simp only [seqOccursB, Bool.and_eq_true, listPrefixOf_iff, listContainsSeg_iff]
    constructor
    · rintro ⟨⟨t, ht⟩, u, v, huv⟩
      rcases List.append_eq_nil.mp ht.symm with ⟨ha, hts⟩
      refine ⟨[], u, v, ?_⟩
      simp [ha, ← huv, hts]
    · rintro ⟨pre, mid, post, h⟩
      have h0 : pre ++ (a ++ (mid ++ (b ++ post))) = ([] : List Char) := by
        simpa [List.append_assoc] using h.symm
      rcases List.append_eq_nil.mp h0 with ⟨hpre, h1⟩
      rcases List.append_eq_nil.mp h1 with ⟨ha, h2⟩
      exact ⟨⟨[], by simp [ha]⟩, mid, post, by simp [ha, h2]⟩
  | cons c t ih =>
    simp only [seqOccursB, Bool.or_eq_true, Bool.and_eq_true, listPrefixOf_iff,
      listContainsSeg_iff, ih]
    constructor
    · rintro (⟨⟨w, hw⟩, u, v, huv⟩ | ⟨pre, mid, post, h⟩)
      · refine ⟨[], u, v, ?_⟩
        have hw2 : (c :: t).drop a.length = w := by
          rw [hw]; exact List.drop_left a w
        have hwv : w = u ++ b ++ v := by rw [← hw2]; exact huv
        rw [hw, hwv]
        simp [List.append_assoc]
      · exact ⟨c :: pre, mid, post, by simp [h]⟩
    · rintro ⟨pre, mid, post, h⟩
      cases pre with
      | nil =>
        have h2 : c :: t = a ++ (mid ++ b ++ post) := by
          simpa [List.append_assoc] using h
        refine Or.inl ⟨⟨mid ++ b ++ post, h2⟩, mid, post, ?_⟩
        rw [h2]
        exact List.drop_left a (mid ++ b ++ post)
      | cons x xs =>
        simp only [List.cons_append, List.cons.injEq] at h
        exact Or.inr ⟨xs, mid, post, h.2⟩

/-- Splits a character list at every occurrence of the separator `c`,
mirroring Python `str.split` with a one-character separator. -/
def splitOnChar (c : Char) : List Char → List (List Char)
  | [] => [[]]
  | a :: t =>
    match splitOnChar c t with
    | [] => if a == c then [[], []] else [[a]]
    | h :: rt => if a == c then [] :: h :: rt else (a :: h) :: rt

/-- Last element of a split, mirroring Python `[-1]` indexing on the
(always non-empty) result of `str.split`. -/
def lastPart : List (List Char) → List Char
  | [] => []
  | [a] => a
  | _ :: b :: t => lastPart (b :: t)

/-- Embeds Python `s.split(sep)[-1]` for the one-character separator used at
`src/llmux.py:33` (`data["name"].split("/")[-1]`). -/
def pySplitLast (s : String) (c : Char) : String :=
  String.mk (lastPart (splitOnChar c s.data))

/-- Embeds `NotebookLMNode` (`src/llmux.py:9`): identity fields plus the
`notebook_id` attribute, `None` until `create_notebook` succeeds.  The
`base_url` and `headers` attributes are transport-level constants derived from
`api_key` and are not modelled separately. -/
structure NotebookLMNode where
  api_key : String
  node_id : String
  notebook_id : Option String := none
deriving DecidableEq

/-- Embeds `NotebookLMNode.create_notebook` (`src/llmux.py:22`).  The remote
create-workspace collaborator is the oracle `remoteCreate`, mapping the
`display_name` the source would POST to either the response `data["name"]`
field (on HTTP 200) or the error body text.  On success the source binds
`self.notebook_id = data["name"].split("/")[-1]` and returns it; the updated
node is returned alongside. -/
def create_notebook (node : NotebookLMNode) (remoteCreate : String → Except String String)
    (name : String) : Except String (String × NotebookLMNode) :=
  let display_name := name ++ " - Node " ++ node.node_id
  match remoteCreate display_name with
  | .ok dataName =>
    let nid := pySplitLast dataName '/'
    .ok (nid, { node with notebook_id := some nid })
  | .error e => .error ("Failed to create notebook: " ++ e)

/-- Embeds `NotebookLMNode.upload_document` (`src/llmux.py:39`).  The oracle
`remoteUpload` maps (bound notebook id, document path) to the collaborator's
`document_id` or the error body; it stands for the file read plus the POST the
source performs.  The method writes no attribute, so the node is returned
unchanged. -/
def upload_documentS (node : NotebookLMNode) (remoteUpload : String → String → Except String String)
    (document_path : String) : Except String String × NotebookLMNode :=
  match node.notebook_id with
  | none => (.error "Notebook not created yet", node)
  | some nb =>
    match remoteUpload nb document_path with
    | .ok docId => (.ok docId, node)
    | .error e => (.error ("Failed to upload document: " ++ e), node)

/-- Embeds `NotebookLMNode.ask_question` (`src/llmux.py:68`).  The oracle
`remoteQuery` maps (bound notebook id, question) to the response text or the
error body. -/
def ask_question (node : NotebookLMNode) (remoteQuery : String → String → Except String String)
    (question : String) : Except String String :=
  match node.notebook_id with
  | none => .error "Notebook not created yet"
  | some nb =>
    match remoteQuery nb question with
    | .ok r => .ok r
    | .error e => .error ("Failed to query notebook: " ++ e)

/-- State-passing form of `ask_question`; the source method writes no
attribute, so the node component is the unchanged input node. -/
def ask_questionS (node : NotebookLMNode) (remoteQuery : String → String → Except String String)
    (question : String) : Except String String × NotebookLMNode :=
  (ask_question node remoteQuery question, node)

/-- Embeds `asyncio.gather(*tasks)` (`src/llmux.py:130,139`): on all-success
the result list is in task order (the i-th result belongs to the i-th task,
whatever the completion order); if a task fails, the whole call fails with
that task's error.  When several tasks fail the source propagates whichever
exception occurs first in time; this embedding determinizes that to the first
failure in task order, which agrees with the source whenever at most one task
fails. -/
def gatherExcept : List (Except String α) → Except String (List α)
  | [] => .ok []
  | .error e :: _ => .error e
  | .ok a :: rest =>
    match gatherExcept rest with
    | .ok as => .ok (a :: as)
    | .error e => .error e

/-- Embeds `NotebookLMScheduler` (`src/llmux.py:88`): the worker pool and the
distinguished aggregator node (`scheduler_node`). -/
structure NotebookLMScheduler where
  api_key : String
  nodes : List NotebookLMNode
  scheduler_node : NotebookLMNode
deriving DecidableEq

/-- Embeds `NotebookLMScheduler.__init__` (`src/llmux.py:91`): empty pool and
a fresh aggregator handle with node id `"scheduler"` and no workspace. -/
def scheduler_init (api_key : String) : NotebookLMScheduler :=
  { api_key := api_key
    nodes := []
    scheduler_node := { api_key := api_key, node_id := "scheduler", notebook_id := none } }

/-- Embeds `NotebookLMScheduler.add_node` (`src/llmux.py:100`). -/
def add_node (s : NotebookLMScheduler) (node : NotebookLMNode) : NotebookLMScheduler :=
  { s with nodes := s.nodes ++ [node] }

/-- Embeds the capacity guard of `distribute_documents` (`src/llmux.py:117`):
`len(document_paths) > len(self.nodes) * documents_per_node`, with the
source's default `documents_per_node = 25`. -/
def capacity_check (s : NotebookLMScheduler) (document_paths : List String)
    (documents_per_node : Nat := 25) : Bool :=
  decide (document_paths.length > s.nodes.length * documents_per_node)

/-- Embeds the slice computed for node `i` in `distribute_documents`
(`src/llmux.py:122`-`124`): `document_paths[start_idx:end_idx]` with
`start_idx = i * documents_per_node` and
`end_idx = min(start_idx + documents_per_node, len(document_paths))`
(a Python slice `l[a:b]` with `0 ≤ a ≤ b` is `(l.drop a).take (b - a)`). -/
def node_slice (document_paths : List String) (documents_per_node i : Nat) : List String :=
  let start_idx := i * documents_per_node
  let end_idx := min (start_idx + documents_per_node) document_paths.length
  (document_paths.drop start_idx).take (end_idx - start_idx)

/-- Embeds `NotebookLMScheduler.distribute_documents` (`src/llmux.py:115`).
The capacity guard runs before any task is created; on the success path the
tasks are one `upload_document` per (node, document-in-its-slice) pair, in
pool order, gathered together; the success value mirrors the final
confirmation print (document count, node count).  The method assigns no
attribute of `self`, so the scheduler component is the unchanged input. -/
def distribute_documentsS (s : NotebookLMScheduler)
    (remoteUpload : String → String → Except String String)
    (document_paths : List String) (documents_per_node : Nat := 25) :
    Except String (Nat × Nat) × NotebookLMScheduler :=
  if capacity_check s document_paths documents_per_node then
    (.error ("Too many documents. Maximum is " ++
      toString (s.nodes.length * documents_per_node)), s)
  else
    let tasks := (s.nodes.enum.map (fun p =>
      (node_slice document_paths documents_per_node p.1).map (fun doc =>
        upload_documentS p.2 remoteUpload doc))).flatten
    match gatherExcept (tasks.map (fun t => t.1)) with
    | .error e => (.error e, s)
    | .ok _ => (.ok (document_paths.length, s.nodes.length), s)

/-- The ingestion calls a `distribute_documents` invocation creates, as
(node id, document path) pairs: none when the capacity guard fires (the guard
raises before the task list is built), otherwise one per (node,
document-in-its-slice) pair in pool order. -/
def distribute_upload_calls (s : NotebookLMScheduler) (document_paths : List String)
    (documents_per_node : Nat := 25) : List (String × String) :=
  if capacity_check s document_paths documents_per_node then []
  else
    (s.nodes.enum.map (fun p =>
      (node_slice document_paths documents_per_node p.1).map (fun doc =>
        (p.2.node_id, doc)))).flatten

/-- The 40-dash separator produced by the Python expression that repeats the
dash character 40 times inside the prompt template (`src/llmux.py:145,149`). -/
def dashes40 : String := "----------------------------------------"

/-- Embeds the joined per-node blocks of the synthesis prompt
(`src/llmux.py:147`): the labelled responses in pool order, 1-based labels. -/
def node_blocks (responses : List String) : String :=
  String.intercalate "\n\n" (responses.enum.map (fun p =>
    "Node " ++ toString (p.1 + 1) ++ " Response:\n" ++ p.2))

/-- The first instruction sentence of the synthesis prompt
(`src/llmux.py:151`). -/
def synthesis_instruction : String :=
  "Please synthesize these responses into a comprehensive answer, highlighting agreements and differences."

/-- Embeds the `summary_request` f-string of `process_query`
(`src/llmux.py:142`-`153`), byte for byte: the triple-quoted template
contributes the leading newline and the 8-space indentation of every line. -/
def summary_request (question : String) (responses : List String) : String :=
  "\n        I received the following responses to the question: \"" ++ question ++
    "\"\n        \n        " ++ dashes40 ++ "\n        \n        " ++
    node_blocks responses ++
    "\n        \n        " ++ dashes40 ++ "\n        \n        " ++
    synthesis_instruction ++
    "\n        Provide a unified response that captures the key insights from all nodes.\n        "

/-- Embeds `NotebookLMScheduler.process_query` (`src/llmux.py:133`): queries
every pool node (gathered in pool order), and on full success sends the
synthesis prompt to the aggregator node.  No method on the path writes any
attribute, so the node pool is threaded through `ask_questionS` and the
scheduler is rebuilt from the returned handles. -/
def process_queryS (s : NotebookLMScheduler)
    (remoteQuery : String → String → Except String String) (question : String) :
    Except String String × NotebookLMScheduler :=
  let results := s.nodes.map (fun n => ask_questionS n remoteQuery question)
  let s1 := { s with nodes := results.map (fun r => r.2) }
  match gatherExcept (results.map (fun r => r.1)) with
  | .error e => (.error e, s1)
  | .ok responses =>
    let summary := summary_request question responses
    let (final_response, sn) := ask_questionS s1.scheduler_node remoteQuery summary
    (final_response, { s1 with scheduler_node := sn })

/-- The per-node query network calls a `process_query` invocation issues, as
(notebook id, question) pairs: every pool node with a bound workspace reaches
its POST (an unbound node raises before its network call, and `gather` does
not prevent the other tasks from running). -/
def process_query_node_calls (s : NotebookLMScheduler) (question : String) :
    List (String × String) :=
  s.nodes.filterMap (fun n => n.notebook_id.map (fun nb => (nb, question)))

/-- How many synthesis (aggregator) query calls a `process_query` invocation
issues: one when every per-node query succeeded and the aggregator has a bound
workspace, zero otherwise (on any node failure the exception propagates out of
`gather` before the summary is built). -/
def process_query_aggregator_calls (s : NotebookLMScheduler)
    (remoteQuery : String → String → Except String String) (question : String) : Nat :=
  match gatherExcept (s.nodes.map (fun n => ask_question n remoteQuery question)) with
  | .error _ => 0
  | .ok _ =>
    match s.scheduler_node.notebook_id with
    | some _ => 1
    | none => 0

theorem node_slice_eq_take (D : List String) (C i : Nat) :
    node_slice D C i = (D.drop (i * C)).take C := by
  unfold node_slice
  rw [List.take_eq_take]
  simp only [List.length_drop]
  omega

theorem flatten_slices (C : Nat) :
    ∀ (N : Nat) (D : List String), D.length ≤ N * C →
      ((List.range N).map (fun i => (D.drop (i * C)).take C)).flatten = D := by
  intro N
  induction N with
  | zero =>
    intro D h
    have hD : D = [] := List.length_eq_zero.mp (Nat.le_zero.mp (by simpa using h))
    simp [hD]
  | succ N ih =>
    intro D h
    have h2 : D.length ≤ N * C + C := by
      rw [Nat.succ_mul] at h
      exact h
    have hlen : (D.drop C).length ≤ N * C := by
      simp only [List.length_drop]
      omega
    rw [List.range_succ_eq_map, List.map_cons, List.flatten_cons, List.map_map]
    have hfun : ((fun i => (D.drop (i * C)).take C) ∘ Nat.succ) =
        (fun i => ((D.drop C).drop (i * C)).take C) := by
      funext i
      simp only [Function.comp_apply, Nat.succ_mul]
      rw [List.drop_drop, Nat.add_comm (i * C) C]
    rw [hfun, ih (D.drop C) hlen]
    simp [List.take_append_drop]

theorem gatherExcept_ok {α : Type} (l : List (Except String α)) (f : Nat → α)
    (h : ∀ i (hi : i < l.length), l.get ⟨i, hi⟩ = .ok (f i)) :
    gatherExcept l = .ok ((List.range l.length).map f) := by
  induction l generalizing f with
  | nil => rfl
  | cons x t ih =>
    have h0 : x = .ok (f 0) := h 0 (by simp)
    have ht : ∀ i (hi : i < t.length), t.get ⟨i, hi⟩ = .ok (f (i + 1)) := by
      intro i hi
      simpa using h (i + 1) (by simpa using Nat.succ_lt_succ hi)
    rw [h0]
    simp only [gatherExcept, ih (fun i => f (i + 1)) ht, List.length_cons,
      List.range_succ_eq_map, List.map_cons, List.map_map, Function.comp,
      Nat.succ_eq_add_one]
    rfl

theorem gatherExcept_error_single {α : Type} (l : List (Except String α)) (k : Nat)
    (hk : k < l.length) (m : String) (hm : l.get ⟨k, hk⟩ = .error m)
    (hok : ∀ j (hj : j < l.length), j ≠ k → ∃ a, l.get ⟨j, hj⟩ = .ok a) :
    gatherExcept l = .error m := by
  induction l generalizing k with
  | nil => exact absurd hk (by simp)
  | cons x t ih =>
    cases k with
    | zero =>
      simp only [List.get] at hm
      rw [hm]
      rfl
    | succ k2 =>
      obtain ⟨a, ha⟩ := hok 0 (by simp) (by simp)
      simp only [List.get] at ha hm
      have hk2 : k2 < t.length := by simpa using hk
      have hok2 : ∀ j (hj : j < t.length), j ≠ k2 → ∃ a, t.get ⟨j, hj⟩ = .ok a := by
        intro j hj hne
        have := hok (j + 1) (by simpa using Nat.succ_lt_succ hj) (by omega)
        simpa using this
      rw [ha]
      simp only [gatherExcept, ih k2 hk2 hm hok2]

theorem gatherExcept_all_ok {α : Type} (l : List (Except String α))
    (h : ∀ x ∈ l, ∃ a, x = .ok a) :
    ∃ rs, gatherExcept l = .ok rs ∧ rs.length = l.length := by
  induction l with
  | nil => exact ⟨[], rfl, rfl⟩
  | cons x t ih =>
    obtain ⟨a, ha⟩ := h x (by simp)
    obtain ⟨rs, hrs, hlen⟩ := ih (fun y hy => h y (by simp [hy]))
    refine ⟨a :: rs, ?_, by simp [hlen]⟩
    rw [ha]
    simp [gatherExcept, hrs]

theorem node_calls_length (nodes : List NotebookLMNode) (q : String)
    (h : ∀ n ∈ nodes, n.notebook_id.isSome = true) :
    (nodes.filterMap (fun n => n.notebook_id.map (fun nb => (nb, q)))).length
      = nodes.length := by
  induction nodes with
  | nil => rfl
  | cons n t ih =>
    obtain ⟨nb, hnb⟩ := Option.isSome_iff_exists.mp (h n (by simp))
    simp [List.filterMap_cons, hnb, ih (fun y hy => h y (by simp [hy]))]

theorem process_queryS_snd (s : NotebookLMScheduler)
    (r : String → String → Except String String) (q : String) :
    (process_queryS s r q).2 = s := by
  unfold process_queryS
  dsimp only [ask_questionS]
  have hnodes : (s.nodes.map (fun n => (ask_question n r q, n))).map (fun p => p.2)
      = s.nodes := by
    have hc : ((fun p : Except String String × NotebookLMNode => p.2) ∘
        fun n => (ask_question n r q, n)) = id := rfl
    rw [List.map_map, hc, List.map_id]
  rw [hnodes]
  split <;> rfl

theorem process_queryS_fst (s : NotebookLMScheduler)
    (remote : String → String → Except String String) (q : String) :
    (process_queryS s remote q).1 =
      match gatherExcept (s.nodes.map (fun n => ask_question n remote q)) with
      | .error e => .error e
      | .ok responses => ask_question s.scheduler_node remote (summary_request q responses) := by
  unfold process_queryS
  dsimp only [ask_questionS]
  rw [List.map_map]
  have hc : ((fun p : Except String String × NotebookLMNode => p.1) ∘
      fun n => (ask_question n remote q, n)) = fun n => ask_question n remote q := rfl
  rw [hc]
  rcases hg : gatherExcept (s.nodes.map fun n => ask_question n remote q) with e | responses <;>
    rfl

theorem distribute_documentsS_snd (s : NotebookLMScheduler)
    (rU : String → String → Except String String) (D : List String) (C : Nat) :
    (distribute_documentsS s rU D C).2 = s := by
  unfold distribute_documentsS
  split
  · rfl
  · dsimp only
    split <;> rfl

/-! Concrete fixtures used by witnesses and counterexamples. -/

def fx_node1 : NotebookLMNode :=
  { api_key := "key", node_id := "1", notebook_id := some "nbA" }

def fx_node2 : NotebookLMNode :=
  { api_key := "key", node_id := "2", notebook_id := some "nbB" }

def fx_agg : NotebookLMNode :=
  { api_key := "key", node_id := "scheduler", notebook_id := some "nbS" }

def fx_sched : NotebookLMScheduler :=
  { api_key := "key", nodes := [fx_node1, fx_node2], scheduler_node := fx_agg }

def fx_sched_empty : NotebookLMScheduler :=
  { api_key := "key", nodes := [], scheduler_node := fx_agg }

def fx_sched_bare : NotebookLMScheduler :=
  { api_key := "key", nodes := [],
    scheduler_node := { api_key := "key", node_id := "scheduler", notebook_id := none } }

def fx_remote_ok : String → String → Except String String := fun _ _ => .ok "ans"

def fx_remote_fail1 : String → String → Except String String :=
  fun nb _ => if nb == "nbA" then .error "boom" else .ok "fine"

/-- Claim C1: when `len(D) ≤ nodeCount · capacity`, the capacity guard of
`distribute_documents` passes, node `i`'s shard is exactly the contiguous
Python slice `D[i·C : min((i+1)·C, len(D))]` (an empty slice gives that node
zero documents, with no error), the shards concatenated in node order are
exactly `D` (so no duplication, no reordering within a shard), and the
ingestion tasks assign node `i` precisely its slice. -/
theorem sharding_correct (s : NotebookLMScheduler) (D : List String) (C : Nat)
    (h : D.length ≤ s.nodes.length * C) :
    capacity_check s D C = false ∧
    (∀ i, node_slice D C i =
      (D.drop (i * C)).take (min ((i + 1) * C) D.length - i * C)) ∧
    ((List.range s.nodes.length).map (node_slice D C)).flatten = D ∧
    distribute_upload_calls s D C =
      (s.nodes.enum.map (fun p =>
        (node_slice D C p.1).map (fun doc => (p.2.node_id, doc)))).flatten := by
  have hcap : capacity_check s D C = false := by
    simp only [capacity_check, decide_eq_false_iff_not, Nat.not_lt]
    exact h
  refine ⟨hcap, ?_, ?_, ?_⟩
  · intro i
    rw [node_slice_eq_take, List.take_eq_take]
    simp only [List.length_drop]
    have hm : (i + 1) * C = i * C + C := Nat.succ_mul i C
    omega
  · rw [show node_slice D C = (fun i => (D.drop (i * C)).take C) from
      funext (node_slice_eq_take D C)]
    exact flatten_slices C s.nodes.length D h
  · simp [distribute_upload_calls, hcap]

/-- Claim C1 witness: two nodes, capacity 2, three documents. -/
theorem sharding_correct_witness :
    capacity_check fx_sched ["a", "b", "c"] 2 = false ∧
    (∀ i, node_slice ["a", "b", "c"] 2 i =
      ((["a", "b", "c"] : List String).drop (i * 2)).take
        (min ((i + 1) * 2) (["a", "b", "c"] : List String).length - i * 2)) ∧
    ((List.range fx_sched.nodes.length).map (node_slice ["a", "b", "c"] 2)).flatten
      = ["a", "b", "c"] ∧
    distribute_upload_calls fx_sched ["a", "b", "c"] 2 =
      (fx_sched.nodes.enum.map (fun p =>
        (node_slice ["a", "b", "c"] 2 p.1).map (fun doc => (p.2.node_id, doc)))).flatten :=
  sharding_correct fx_sched ["a", "b", "c"] 2 (by decide)

/-- Claim C2: when `len(D) > nodeCount · capacity`, `distribute_documents`
fails with the capacity-exceeded error and creates zero upload tasks (the
guard raises before the task loop). -/
theorem capacity_rejection (s : NotebookLMScheduler)
    (rU : String → String → Except String String) (D : List String) (C : Nat)
    (h : D.length > s.nodes.length * C) :
    (distribute_documentsS s rU D C).1 =
      .error ("Too many documents. Maximum is " ++ toString (s.nodes.length * C)) ∧
    distribute_upload_calls s D C = [] := by
  have hcap : capacity_check s D C = true := by
    simp only [capacity_check, decide_eq_true_eq]
    exact h
  constructor
  · simp [distribute_documentsS, hcap]
  · simp [distribute_upload_calls, hcap]

/-- Claim C2 witness: five documents on two nodes of capacity two. -/
theorem capacity_rejection_witness :
    (distribute_documentsS fx_sched fx_remote_ok ["a", "b", "c", "d", "e"] 2).1 =
      .error ("Too many documents. Maximum is " ++ toString (fx_sched.nodes.length * 2)) ∧
    distribute_upload_calls fx_sched ["a", "b", "c", "d", "e"] 2 = [] :=
  capacity_rejection fx_sched fx_remote_ok ["a", "b", "c", "d", "e"] 2 (by decide)

/-- Claim C10: with the default (omitted) per-node capacity, the capacity
guard uses 25 documents per node — it passes exactly when
`len(D) ≤ 25 · nodeCount`, a violation produces the capacity error naming
`nodeCount · 25`, and node `i`'s slice is `D[25·i : min(25·(i+1), len(D))]`. -/
theorem default_capacity (s : NotebookLMScheduler)
    (rU : String → String → Except String String) (D : List String) :
    (capacity_check s D = false ↔ D.length ≤ 25 * s.nodes.length) ∧
    (capacity_check s D = true →
      (distribute_documentsS s rU D).1 =
        .error ("Too many documents. Maximum is " ++ toString (s.nodes.length * 25))) ∧
    (∀ i, node_slice D 25 i =
      (D.drop (25 * i)).take (min (25 * (i + 1)) D.length - 25 * i)) := by
  refine ⟨?_, ?_, ?_⟩
  · simp only [capacity_check, decide_eq_false_iff_not, Nat.not_lt]
    omega
  · intro hcap
    simp [distribute_documentsS, hcap]
  · intro i
    rw [show 25 * i = i * 25 from Nat.mul_comm 25 i, node_slice_eq_take, List.take_eq_take]
    simp only [List.length_drop]
    have hm : 25 * (i + 1) = i * 25 + 25 := by ring
    omega

/-- Claim C10 witness: one document on an empty pool trips the default
guard (`1 > 0 · 25`), and slice 0 of a three-document list with the default
capacity is the whole list. -/
theorem default_capacity_witness :
    (capacity_check fx_sched_bare ["a"] = true) ∧
    (distribute_documentsS fx_sched_bare fx_remote_ok ["a"]).1 =
      .error ("Too many documents. Maximum is " ++ toString (fx_sched_bare.nodes.length * 25)) ∧
    node_slice ["a", "b", "c"] 25 0 =
      ((["a", "b", "c"] : List String).drop (25 * 0)).take
        (min (25 * (0 + 1)) (["a", "b", "c"] : List String).length - 25 * 0) := by
  refine ⟨by decide, ?_, ?_⟩
  · exact (default_capacity fx_sched_bare fx_remote_ok ["a"]).2.1 (by decide)
  · exact (default_capacity fx_sched_bare fx_remote_ok ["a", "b", "c"]).2.2 0

/-- The property claim C3 asserts of a failed round: the error names the
failing node by 0-based index or by its `node_id` label. -/
def names_failing_node (s : NotebookLMScheduler)
    (remote : String → String → Except String String) (q : String)
    (k : Nat) (hk : k < s.nodes.length) : Prop :=
  ∃ msg, (process_queryS s remote q).1 = .error msg ∧
    (strContains msg (toString k) = true ∨
      strContains msg ((s.nodes.get ⟨k, hk⟩).node_id) = true)

/-- Claim C3 counterexample: node 0 (id "1") fails with "boom" while node 1
succeeds; the round fails and synthesis is never invoked, but the propagated
error is the bare "Failed to query notebook: boom", which names neither the
failing node's index nor its id. -/
theorem query_failure_unnamed_cex :
    ask_question fx_node1 fx_remote_fail1 "Q" = .error "Failed to query notebook: boom" ∧
    ask_question fx_node2 fx_remote_fail1 "Q" = .ok "fine" ∧
    (process_queryS fx_sched fx_remote_fail1 "Q").1 =
      .error "Failed to query notebook: boom" ∧
    ¬ names_failing_node fx_sched fx_remote_fail1 "Q" 0 (by decide) := by
  refine ⟨rfl, rfl, rfl, ?_⟩
  rintro ⟨msg, hmsg, hname⟩
  rw [show (process_queryS fx_sched fx_remote_fail1 "Q").1 =
    .error "Failed to query notebook: boom" from rfl] at hmsg
  cases hmsg
  rcases hname with h | h
  · exact absurd h (by decide)
  · exact absurd h (by decide)

/-- Claim C3 (amended): when node `k` is the unique failing node with
underlying error `e`, the round fails with the node's wrapped error
`"Failed to query notebook: " ++ e` — which carries the underlying error but
does not name node `k`'s index or id — and the aggregator's synthesis query
is never invoked. -/
theorem query_failure_propagates (s : NotebookLMScheduler)
    (remote : String → String → Except String String) (q : String)
    (k : Nat) (hk : k < s.nodes.length) (nb e : String)
    (hnb : (s.nodes.get ⟨k, hk⟩).notebook_id = some nb)
    (he : remote nb q = .error e)
    (hok : ∀ j (hj : j < s.nodes.length), j ≠ k →
      ∃ r, ask_question (s.nodes.get ⟨j, hj⟩) remote q = .ok r) :
    (process_queryS s remote q).1 = .error ("Failed to query notebook: " ++ e) ∧
    process_query_aggregator_calls s remote q = 0 := by
  have hnb2 : s.nodes[k].notebook_id = some nb := by
    simpa [List.get_eq_getElem] using hnb
  have hask : ask_question (s.nodes.get ⟨k, hk⟩) remote q =
      .error ("Failed to query notebook: " ++ e) := by
    simp [ask_question, hnb2, he]
  have hlen : (s.nodes.map (fun n => ask_question n remote q)).length = s.nodes.length := by
    simp
  have hkl : k < (s.nodes.map (fun n => ask_question n remote q)).length := by
    rw [hlen]; exact hk
  have hmk : (s.nodes.map (fun n => ask_question n remote q)).get ⟨k, hkl⟩ =
      .error ("Failed to query notebook: " ++ e) := by
    rw [List.get_map]
    exact hask
  have hjok : ∀ j (hj : j < (s.nodes.map (fun n => ask_question n remote q)).length),
      j ≠ k → ∃ a, (s.nodes.map (fun n => ask_question n remote q)).get ⟨j, hj⟩ = .ok a := by
    intro j hj hne
    rw [List.get_map]
    exact hok j (by rw [hlen] at hj; exact hj) hne
  have hg : gatherExcept (s.nodes.map (fun n => ask_question n remote q)) =
      .error ("Failed to query notebook: " ++ e) :=
    gatherExcept_error_single _ k hkl _ hmk hjok
  constructor
  · rw [process_queryS_fst, hg]
  · unfold process_query_aggregator_calls
    rw [hg]

/-- Claim C3 witness for the amended statement: node 0 of the two-node pool
fails with "boom" while node 1 succeeds. -/
theorem query_failure_propagates_witness :
    (process_queryS fx_sched fx_remote_fail1 "Q").1 =
      .error ("Failed to query notebook: " ++ "boom") ∧
    process_query_aggregator_calls fx_sched fx_remote_fail1 "Q" = 0 :=
  query_failure_propagates fx_sched fx_remote_fail1 "Q" 0 (by decide) "nbA" "boom"
    rfl rfl
    (by
      intro j hj hne
      have h2 : j < 2 := by simpa [fx_sched] using hj
      interval_cases j
      · exact absurd rfl hne
      · exact ⟨"fine", rfl⟩)

/-- Claim C4: on a fully successful round the collected response vector has
one entry per pool node and its `i`-th entry is node `i`'s answer, whatever
the completion order (`asyncio.gather` collects in task order); the round
then sends the synthesis prompt built from exactly that vector to the
aggregator. -/
theorem round_ordering (s : NotebookLMScheduler)
    (remote : String → String → Except String String) (q : String) (ans : Nat → String)
    (h : ∀ i (hi : i < s.nodes.length),
      ask_question (s.nodes.get ⟨i, hi⟩) remote q = .ok (ans i)) :
    ∃ rs, gatherExcept (s.nodes.map (fun n => ask_question n remote q)) = .ok rs ∧
      rs.length = s.nodes.length ∧
      (∀ i (hi : i < rs.length), rs.get ⟨i, hi⟩ = ans i) ∧
      (process_queryS s remote q).1 =
        ask_question s.scheduler_node remote (summary_request q rs) := by
  have hget : ∀ i (hi : i < (s.nodes.map (fun n => ask_question n remote q)).length),
      (s.nodes.map (fun n => ask_question n remote q)).get ⟨i, hi⟩ = .ok (ans i) := by
    intro i hi
    rw [List.get_map]
    exact h i (by simpa using hi)
  have hg := gatherExcept_ok (s.nodes.map (fun n => ask_question n remote q)) ans hget
  refine ⟨(List.range (s.nodes.map (fun n => ask_question n remote q)).length).map ans,
    hg, by simp, ?_, ?_⟩
  · intro i hi
    rw [List.get_map, List.get_range]
  · rw [process_queryS_fst, hg]

/-- Claim C4 witness: the two-node pool with both nodes answering. -/
theorem round_ordering_witness :
    ∃ rs, gatherExcept (fx_sched.nodes.map (fun n => ask_question n fx_remote_ok "Q")) = .ok rs ∧
      rs.length = fx_sched.nodes.length ∧
      (∀ i (hi : i < rs.length), rs.get ⟨i, hi⟩ = (fun _ => "ans") i) ∧
      (process_queryS fx_sched fx_remote_ok "Q").1 =
        ask_question fx_sched.scheduler_node fx_remote_ok (summary_request "Q" rs) :=
  round_ordering fx_sched fx_remote_ok "Q" (fun _ => "ans")
    (by
      intro i hi
      have h2 : i < 2 := by simpa [fx_sched] using hi
      interval_cases i
      · rfl
      · rfl)

/-- The property claim C5 asserts of the synthesis prompt: the labelled
per-node blocks appear (in node order, via `node_blocks`), FOLLOWED by the
original question restated verbatim, plus the synthesis instruction. -/
def blocks_then_question (q : String) (rs : List String) : Prop :=
  (∃ pre mid post, (summary_request q rs).data =
    pre ++ (node_blocks rs).data ++ mid ++ q.data ++ post) ∧
  strContains (summary_request q rs) synthesis_instruction = true

set_option maxRecDepth 16384 in
/-- Claim C5 counterexample: for question "XYZZY" and one answer "hello" the
question is restated before — not after — the labelled blocks, so no
decomposition places the question after them. -/
theorem synthesis_prompt_order_cex : ¬ blocks_then_question "XYZZY" ["hello"] := by
  rintro ⟨⟨pre, mid, post, hd⟩, -⟩
  have hb : seqOccursB (node_blocks ["hello"]).data ("XYZZY" : String).data
      (summary_request "XYZZY" ["hello"]).data = true :=
    (seqOccursB_iff _ _ _).mpr ⟨pre, mid, post, hd⟩
  exact absurd hb (by decide)

/-- Claim C5 (amended): the synthesis prompt contains one labelled block per
node in node order, labelled by 1-based position and carrying that node's
answer (`node_blocks`), PRECEDED by the original question restated verbatim
(the prompt opens by restating the question), with the instruction to
synthesize one unified answer highlighting agreements and differences
appearing after the blocks. -/
theorem synthesis_prompt_structure (q : String) (rs : List String) :
    ∃ pre mid post : List Char,
      (summary_request q rs).data = pre ++ q.data ++ mid ++ (node_blocks rs).data ++ post ∧
      ∃ u v : List Char, post = u ++ synthesis_instruction.data ++ v := by
  refine ⟨("\n        I received the following responses to the question: \"" : String).data,
    ("\"\n        \n        " ++ dashes40 ++ "\n        \n        ").data,
    ("\n        \n        " ++ dashes40 ++ "\n        \n        " ++ synthesis_instruction ++
      "\n        Provide a unified response that captures the key insights from all nodes.\n        ").data,
    ?_,
    ("\n        \n        " ++ dashes40 ++ "\n        \n        ").data,
    ("\n        Provide a unified response that captures the key insights from all nodes.\n        ").data,
    ?_⟩
  · simp only [summary_request, String.data_append, List.append_assoc]
  · simp only [String.data_append, List.append_assoc]

/-- The property claim C6 asserts: with an empty pool or an uninitialized
aggregator, `process_query` fails and no per-node query is issued first. -/
def precondition_guarded (s : NotebookLMScheduler)
    (remote : String → String → Except String String) (q : String) : Prop :=
  s.nodes = [] ∨ s.scheduler_node.notebook_id = none →
    ∃ e, (process_queryS s remote q).1 = .error e ∧ process_query_node_calls s q = []

/-- Claim C6 counterexample: with an empty pool and an initialized
aggregator, `process_query` does not fail at all — it queries the aggregator
with a zero-response synthesis prompt and returns its answer. -/
theorem no_precondition_check_cex :
    (process_queryS fx_sched_empty fx_remote_ok "Q").1 = .ok "ans" ∧
    ¬ precondition_guarded fx_sched_empty fx_remote_ok "Q" := by
  refine ⟨rfl, ?_⟩
  intro h
  obtain ⟨e, he, -⟩ := h (Or.inl rfl)
  rw [show (process_queryS fx_sched_empty fx_remote_ok "Q").1 = .ok "ans" from rfl] at he
  exact Except.noConfusion he

/-- Claim C6 (amended): `process_query` performs no upfront initialization
check.  With an empty pool it proceeds and returns the aggregator's answer to
the zero-response synthesis prompt; with an uninitialized aggregator it fails
with the handle-level "Notebook not created yet" error, but only after every
pool node's query has been issued. -/
theorem process_query_unchecked (s : NotebookLMScheduler)
    (remote : String → String → Except String String) (q : String) :
    (∀ nb ans, s.nodes = [] → s.scheduler_node.notebook_id = some nb →
      remote nb (summary_request q []) = .ok ans →
      (process_queryS s remote q).1 = .ok ans) ∧
    (s.scheduler_node.notebook_id = none →
      (∀ n ∈ s.nodes, ∃ r, ask_question n remote q = .ok r) →
      (process_queryS s remote q).1 = .error "Notebook not created yet" ∧
      (process_query_node_calls s q).length = s.nodes.length) := by
  constructor
  · intro nb ans hn hnb hrem
    rw [process_queryS_fst, hn]
    simp [gatherExcept, ask_question, hnb, hrem]
  · intro hnone hall
    have hex : ∀ x ∈ s.nodes.map (fun n => ask_question n remote q), ∃ a, x = .ok a := by
      intro x hx
      obtain ⟨n, hn, rfl⟩ := List.mem_map.mp hx
      exact hall n hn
    obtain ⟨rs, hrs, -⟩ := gatherExcept_all_ok _ hex
    constructor
    · rw [process_queryS_fst, hrs]
      simp [ask_question, hnone]
    · have hbound : ∀ n ∈ s.nodes, n.notebook_id.isSome = true := by
        intro n hn
        obtain ⟨r, hr⟩ := hall n hn
        cases hnb : n.notebook_id with
        | none => simp [ask_question, hnb] at hr
        | some _ => rfl
      exact node_calls_length s.nodes q hbound

/-- Claim C6 witness for the amended statement: the empty-pool success case
on `fx_sched_empty` and the unbound-aggregator failure case on
`fx_sched_bare`. -/
theorem process_query_unchecked_witness :
    (process_queryS fx_sched_empty fx_remote_ok "Q").1 = .ok "ans" ∧
    (process_queryS fx_sched_bare fx_remote_ok "Q").1 = .error "Notebook not created yet" ∧
    (process_query_node_calls fx_sched_bare "Q").length = fx_sched_bare.nodes.length := by
  refine ⟨?_, ?_⟩
  · exact (process_query_unchecked fx_sched_empty fx_remote_ok "Q").1 "nbS" "ans" rfl rfl rfl
  · exact (process_query_unchecked fx_sched_bare fx_remote_ok "Q").2 rfl
      (fun n hn => absurd hn (List.not_mem_nil n))

/-- The property claim C7 asserts of `create_notebook`: a handle whose
workspace id is already bound cannot have it changed by a later call. -/
def workspace_bound_once (n : NotebookLMNode) (rc : String → Except String String)
    (name : String) : Prop :=
  ∀ nid n2, create_notebook n rc name = .ok (nid, n2) →
    n.notebook_id.isSome = true → n2.notebook_id = n.notebook_id

def fx_bound_node : NotebookLMNode :=
  { api_key := "key", node_id := "1", notebook_id := some "A" }

def fx_create_ok : String → Except String String := fun _ => .ok "notebooks/B"

/-- Claim C7 counterexample: a handle already bound to workspace "A" is
rebound to "B" by a second successful `create_notebook` — the source has no
bind-once guard. -/
theorem create_rebind_cex :
    create_notebook fx_bound_node fx_create_ok "X" =
      .ok ("B", { api_key := "key", node_id := "1", notebook_id := some "B" }) ∧
    ¬ workspace_bound_once fx_bound_node fx_create_ok "X" := by
  refine ⟨rfl, ?_⟩
  intro h
  have hb := h "B" { api_key := "key", node_id := "1", notebook_id := some "B" } rfl rfl
  exact absurd hb (by decide)

/-- Claim C7 (amended): every successful `create_notebook` unconditionally
(re)binds `notebook_id` to the id parsed from the response — even when it was
already bound — and no operation other than `create_notebook` ever writes it
(`upload_document` and `ask_question` leave the handle unchanged). -/
theorem create_rebinds_workspace (n : NotebookLMNode) (rc : String → Except String String)
    (name dataName : String) (h : rc (name ++ " - Node " ++ n.node_id) = .ok dataName) :
    create_notebook n rc name =
      .ok (pySplitLast dataName '/',
        { n with notebook_id := some (pySplitLast dataName '/') }) ∧
    (∀ rU p, (upload_documentS n rU p).2 = n) ∧
    (∀ rQ q2, (ask_questionS n rQ q2).2 = n) := by
  refine ⟨?_, ?_, fun rQ q2 => rfl⟩
  · unfold create_notebook
    dsimp only
    rw [h]
  · intro rU p
    cases hnb : n.notebook_id with
    | none => simp [upload_documentS, hnb]
    | some nb =>
      cases hru : rU nb p with
      | ok d => simp [upload_documentS, hnb, hru]
      | error e => simp [upload_documentS, hnb, hru]

/-- Claim C7 witness for the amended statement: rebinding `fx_bound_node`
from workspace "A" to "B". -/
theorem create_rebinds_workspace_witness :
    create_notebook fx_bound_node fx_create_ok "X" =
      .ok (pySplitLast "notebooks/B" '/',
        { fx_bound_node with notebook_id := some (pySplitLast "notebooks/B" '/') }) ∧
    (∀ rU p, (upload_documentS fx_bound_node rU p).2 = fx_bound_node) ∧
    (∀ rQ q2, (ask_questionS fx_bound_node rQ q2).2 = fx_bound_node) :=
  create_rebinds_workspace fx_bound_node fx_create_ok "X" "notebooks/B" rfl

/-- Claim C8: a failed `distribute_documents` call or a failed `process_query`
round leaves the scheduler's state — the node pool (each handle with its
bound workspace id) and the aggregator handle — exactly as it was, so
subsequent calls remain usable.  (Neither method writes any attribute on any
path, so the state is in fact preserved on success as well.) -/
theorem failure_preserves_state (s : NotebookLMScheduler)
    (rU rQ : String → String → Except String String)
    (D : List String) (C : Nat) (q : String) :
    (∀ e, (distribute_documentsS s rU D C).1 = .error e →
      (distribute_documentsS s rU D C).2 = s) ∧
    (∀ e, (process_queryS s rQ q).1 = .error e →
      (process_queryS s rQ q).2 = s) := by
  exact ⟨fun e _ => distribute_documentsS_snd s rU D C,
    fun e _ => process_queryS_snd s rQ q⟩

/-- Claim C8 witness: state preservation on a capacity-rejected distribution
and an unbound-aggregator query failure on the bare scheduler. -/
theorem failure_preserves_state_witness :
    (distribute_documentsS fx_sched_bare fx_remote_ok ["a"] 25).2 = fx_sched_bare ∧
    (process_queryS fx_sched_bare fx_remote_ok "Q").2 = fx_sched_bare := by
  have h := failure_preserves_state fx_sched_bare fx_remote_ok fx_remote_ok ["a"] 25 "Q"
  exact ⟨h.1 "Too many documents. Maximum is 0" rfl,
    h.2 "Notebook not created yet" rfl⟩

/-- Claim C9: building the synthesis prompt is deterministic — for equal
questions and equal ordered answer lists the produced prompt text is
byte-identical (the construction is a pure function of its two inputs). -/
theorem synthesis_prompt_deterministic (q1 q2 : String) (rs1 rs2 : List String)
    (hq : q1 = q2) (hr : rs1 = rs2) :
    summary_request q1 rs1 = summary_request q2 rs2 := by
  rw [hq, hr]

/-- Claim C9 witness. -/
theorem synthesis_prompt_deterministic_witness :
    summary_request "Q" ["a", "b"] = summary_request "Q" ["a", "b"] :=
  synthesis_prompt_deterministic "Q" "Q" ["a", "b"] ["a", "b"] rfl rfl

end Llmux
